import Mathlib

/-!
Verification of the visual-hive tempo-synchronised effects engine.

The development embeds the control logic of the repository in Lean:
the audio tempo smoother (`addValue`, `calculateMedianBPM` and the
publish block of `bpmDetectionLoop` from `BpmDetector`), the manual
beat realignment (`manualSync`) and grid-boundary predicate
(`isNearMultiple`) from `main.cpp`, the cue-mode asset commit logic,
the instant asset-swap key handling, and the bounce animation scale.

C++ doubles are modelled as exact rationals (the bounce animation,
which uses the transcendental sine, is modelled over the reals).
`std::fmod`, `std::round`, `std::floor` and `std::ceil` are modelled
by `fmodQ`, `cRound`, `floorQ` and `ceilQ` with C semantics
(truncation toward zero for `fmod`, rounding half away from zero).
-/

namespace VisualHive

/-- C truncation toward zero, as used by `std::fmod`. -/
def cTrunc (x : ℚ) : ℤ :=
  if 0 ≤ x then ⌊x⌋ else ⌈x⌉

/-- `std::fmod x y = x - y * trunc (x / y)` (sign of the dividend). -/
def fmodQ (x y : ℚ) : ℚ :=
  x - y * (cTrunc (x / y) : ℚ)

/-- `std::floor`, kept rational valued. -/
def floorQ (x : ℚ) : ℚ := (⌊x⌋ : ℤ)

/-- `std::ceil`, kept rational valued. -/
def ceilQ (x : ℚ) : ℚ := (⌈x⌉ : ℤ)

/-- `std::round`: rounding half away from zero. -/
def cRound (x : ℚ) : ℚ :=
  if 0 ≤ x then ((⌊x + 1/2⌋ : ℤ) : ℚ) else ((⌈x - 1/2⌉ : ℤ) : ℚ)

/-! ## Constants of the BPM detector (`BpmDetector` globals) -/

def BUFFER_SIZE : ℕ := 15
def PERCENTAGE_TOLERANCE : ℚ := 1/10
def INITIAL_ROUNDING_TOLERANCE : ℚ := 1/5
def MIN_ROUNDING_TOLERANCE : ℚ := 1/100
def MAX_ROUNDING_TOLERANCE : ℚ := 1/2
def TOLERANCE_SHRINK_RATE : ℚ := 1/20
def TOLERANCE_GROWTH_RATE : ℚ := 1/10

/-! ## The smoothing window (`addValue`) -/

/-- The octave correction performed at the top of `addValue`:
a sample below 100 is doubled (once). -/
def octaveCorrect (v : ℚ) : ℚ :=
  if v < 100 then v * 2 else v

/-- `std::lower_bound` followed by `insert`: insert `v` in front of the
first element that is not smaller than `v`. -/
def lowerBoundInsert (l : List ℚ) (v : ℚ) : List ℚ :=
  match l with
  | [] => [v]
  | x :: xs => if x < v then x :: lowerBoundInsert xs v else v :: x :: xs

/-- The erase loop of `addValue`: `std::lower_bound` to the first element
not smaller than `v`, then erase it when it equals `v` (at most one
element is removed, because of the `break`). -/
def lowerBoundEraseOne (l : List ℚ) (v : ℚ) : List ℚ :=
  match l with
  | [] => []
  | x :: xs =>
    if x < v then x :: lowerBoundEraseOne xs v
    else if x = v then xs else x :: xs

/-- `addValue(timeWindow, sortedWindow, value, windowSize)` from
`BpmDetector`, with the shared `*g_BPM` passed explicitly.  Returns the
new `(timeWindow, sortedWindow)` pair.  `sortedWindow.front()` and
`sortedWindow.back()` are modelled by `headI` / `getLastD 0` (the C++
is undefined on an empty window in that branch). -/
def addValue (tw sw : List ℚ) (gBPM v : ℚ) (windowSize : ℕ) : List ℚ × List ℚ :=
  let v2 := octaveCorrect v
  if windowSize ≤ tw.length ∧
      (v2 < sw.headI - gBPM * PERCENTAGE_TOLERANCE ∨
        sw.getLastD 0 + gBPM * PERCENTAGE_TOLERANCE < v2) then
    (tw, sw)
  else
    let tw2 := tw ++ [v2]
    let sw2 := lowerBoundInsert sw v2
    if windowSize ≤ tw2.length then
      (tw2.tail, lowerBoundEraseOne sw2 tw2.headI)
    else
      (tw2, sw2)

/-! ## Median and adaptive rounding (`calculateMedianBPM` and the
publish block of `bpmDetectionLoop`) -/

/-- `std::sort` on a copy, as done inside `calculateMedianBPM`. -/
def sortQ (l : List ℚ) : List ℚ :=
  l.foldl lowerBoundInsert []

/-- The median computation of `calculateMedianBPM`. -/
def medianOf (w : List ℚ) : ℚ :=
  let sorted := sortQ w
  let size := sorted.length
  if size % 2 = 0 then (sorted.getD (size / 2 - 1) 0 + sorted.getD (size / 2) 0) / 2
  else sorted.getD (size / 2) 0

/-- The shared strong-evidence test: a reading decisively past the
opposite rounding boundary relative to the current published BPM. -/
def strongEvidenceP (current corrected : ℚ) : Prop :=
  0 < current ∧
    ((current < corrected ∧ ceilQ corrected + 1/10 < corrected) ∨
      (corrected < current ∧ corrected < floorQ corrected + 1/10))

instance (a b : ℚ) : Decidable (strongEvidenceP a b) :=
  inferInstanceAs (Decidable (0 < a ∧
    ((a < b ∧ ceilQ b + 1/10 < b) ∨ (b < a ∧ b < floorQ b + 1/10))))

/-- `calculateMedianBPM(window)` with the globals `*g_BPM` and
`roundingTolerance` passed and returned explicitly: the returned pair
is `(rounded_bpm, new roundingTolerance)`.  The downward correction
inside this function is commented out in the source
(`corrected_bpm = median_double`). -/
def calculateMedianBPM (window : List ℚ) (gBPM tol : ℚ) : ℚ × ℚ :=
  if window = [] then (0, tol)
  else
    let corrected := medianOf window
    if strongEvidenceP gBPM corrected then (cRound corrected, 1/10)
    else if |corrected - floorQ corrected| < tol ∨ |corrected - ceilQ corrected| < tol then
      if cRound corrected = gBPM then (cRound corrected, max (1/100) (tol - 1/20))
      else (cRound corrected, 1/10)
    else if corrected < gBPM then (ceilQ corrected, min (tol + 1/10) (1/2))
    else (floorQ corrected, min (tol + 1/10) (1/2))

/-- The publish block of `bpmDetectionLoop` (lines 337-367): it calls
`calculateMedianBPM`, applies the 1.5 percent downward correction and
runs the relocated dynamic rounding logic, then stores the result into
`*g_BPM`.  Returns `(new *g_BPM, new roundingTolerance)`. -/
def publish (sortedWindow : List ℚ) (gBPM tol : ℚ) : ℚ × ℚ :=
  let q := calculateMedianBPM sortedWindow gBPM tol
  let corrected := q.1 - q.1 * (15/1000)
  if strongEvidenceP gBPM corrected then (cRound corrected, INITIAL_ROUNDING_TOLERANCE)
  else if |corrected - floorQ corrected| < q.2 ∨ |corrected - ceilQ corrected| < q.2 then
    if cRound corrected = gBPM then
      (cRound corrected, max MIN_ROUNDING_TOLERANCE (q.2 - TOLERANCE_SHRINK_RATE))
    else (cRound corrected, INITIAL_ROUNDING_TOLERANCE)
  else if corrected < gBPM then
    (ceilQ corrected, min MAX_ROUNDING_TOLERANCE (q.2 + TOLERANCE_GROWTH_RATE))
  else
    (floorQ corrected, min MAX_ROUNDING_TOLERANCE (q.2 + TOLERANCE_GROWTH_RATE))

/-- Accepting a list of raw samples in order through `addValue`,
starting from an empty window, with a fixed published BPM. -/
def acceptAll (samples : List ℚ) (gBPM : ℚ) : List ℚ × List ℚ :=
  samples.foldl (fun st v => addValue st.1 st.2 gBPM v BUFFER_SIZE) ([], [])

/-- The five-sample window of the specification scenario. -/
def specWindow : List ℚ := [118, 119, 120, 121, 122]

/-! ## Beat clock: `manualSync` and `isNearMultiple` (`main.cpp`) -/

/-- Modelled from the spec: the Ableton Link app session state, which is
not part of this repository.  The timeline is linear in time:
`beatAtTime(t) = beatOrigin + tempo * t / 60`, and
`forceBeatAtTime(beat, time)` shifts the beat origin so that
`beatAtTime(time) = beat` afterwards (the spec: realign is implemented
by computing the fractional offset at `now` and subtracting it from the
session's beat origin). -/
structure SessionState where
  tempo : ℚ
  beatOrigin : ℚ

/-- Modelled from the spec: `timeline.beatAtTime(now, quantum)` of the
external Link session, linear in time.  The quantum argument only
affects phase alignment across peers, not the beat value itself. -/
def beatAtTime (s : SessionState) (t : ℚ) : ℚ :=
  s.beatOrigin + s.tempo * t / 60

/-- Modelled from the spec: `timeline.forceBeatAtTime(beat, time, quantum)`
maps the given beat to the given time on the shared timeline. -/
def forceBeatAtTime (s : SessionState) (b t : ℚ) : SessionState :=
  { s with beatOrigin := s.beatOrigin + (b - beatAtTime s t) }

/-- `manualSync` from `main.cpp` (lines 71-83): read the current beat,
compute the fractional phase with `std::fmod(currentBeat, 1.0)` and
force the timeline to the de-fractioned beat at the same instant. -/
def manualSync (s : SessionState) (now : ℚ) : SessionState :=
  let currentBeat := beatAtTime s now
  let phaseOffset := fmodQ currentBeat 1
  let correctedBeat := currentBeat - phaseOffset
  forceBeatAtTime s correctedBeat now

/-- `isNearMultiple(value, displacement, divisor, tolerance)` from
`main.cpp` (lines 85-94). -/
def isNearMultiple (value displacement divisor tolerance : ℚ) : Prop :=
  let mod := fmodQ value divisor
  let remainder := mod - displacement
  |remainder| < tolerance ∨ |divisor - remainder| < tolerance

instance (a b c d : ℚ) : Decidable (isNearMultiple a b c d) :=
  inferInstanceAs (Decidable (_ ∨ _))

/-! ## Cue-mode asset commit (`videoProcessingThread`, `main.cpp`) -/

/-- One asset channel of the player: the rendered handle and the
optional queued handle (asset handles are numbered abstractly). -/
structure ChannelState where
  active : ℕ
  queued : Option ℕ
deriving DecidableEq

/-- Key handling while cue mode is ON (`main.cpp` lines 196-199):
the pressed asset is stored in the queued slot, the active asset is
untouched. -/
def cueKeyPress (asset : ℕ) (st : ChannelState) : ChannelState :=
  { st with queued := some asset }

/-- One pass of the cue-commit block (`main.cpp` lines 225-241) for one
channel: whenever `isNearMultiple(currentBeat, displacement,
cueBeatInterval, 0.1)` holds, the queued asset (or a random pick when
none is queued) becomes active and the queued slot is cleared.  There
is no once-per-interval edge detection; the block runs on every frame
for which the predicate holds. -/
def cueTick (currentBeat displacement : ℚ) (randomPick : ℕ)
    (st : ChannelState) : ChannelState :=
  if isNearMultiple currentBeat displacement 32 (1/10) then
    { active := st.queued.getD randomPick, queued := none }
  else st

/-! ## Instant asset swap on key press (`main.cpp` lines 196-207) -/

/-- One asset channel together with counters of the `close()` and
`open()` calls performed on handles. -/
structure SwapState where
  active : ℕ
  closes : ℕ
  opens : ℕ
deriving DecidableEq

/-- The background key-press handling of `videoProcessingThread` with
cue mode OFF (`main.cpp` lines 196-207): when a key resolves to an
asset and the key is down, the current active asset is closed, the new
asset becomes active and is opened.  There is no check that the
selected asset differs from the active one. -/
def instantSwap (newAsset : Option ℕ) (isKeyDown cueActive : Bool)
    (st : SwapState) : SwapState :=
  match newAsset with
  | none => st
  | some b =>
    if isKeyDown then
      if cueActive then st
      else { active := b, closes := st.closes + 1, opens := st.opens + 1 }
    else st

/-! ## Bounce animation (`main.cpp` lines 267-292) -/

/-- The bounce scale formula `1.0 + amplitude * sin((progress + 0.5) * PI)`;
the source hard-codes the amplitude 0.1. -/
noncomputable def bounceScale (amplitude progress : ℝ) : ℝ :=
  1 + amplitude * Real.sin ((progress + 1/2) * Real.pi)

/-- The bounce step while animating: for `progress < 1.0` the scale
follows `bounceScale` with amplitude 0.1 and the animation stays
active; otherwise the animation stops (`isAnimating = false`) and the
scale is 1.0.  Returns `(isAnimating, scale)`. -/
noncomputable def bounceUpdate (progress : ℝ) : Bool × ℝ :=
  if progress < 1 then (true, bounceScale (1/10) progress) else (false, 1)

/-! ## The reading/calculation phases of `bpmDetectionLoop` -/

/-- The state touched by one iteration of `bpmDetectionLoop`. -/
structure DetectState where
  lastReadings : List ℚ
  timeWindow : List ℚ
  sortedWindow : List ℚ
  gBPM : ℚ
  tol : ℚ

/-- The read-interval branch (lines 324-329): the fresh BPM reading is
inserted into `lastReadings` at its `std::lower_bound` position. -/
def readPhase (bpm : ℚ) (s : DetectState) : DetectState :=
  { s with lastReadings := lowerBoundInsert s.lastReadings bpm }

/-- The guard of the publish block (line 332): `lastReadings.size() > 0`. -/
def calcGuard (s : DetectState) : Prop :=
  s.lastReadings ≠ []

instance (s : DetectState) : Decidable (calcGuard s) :=
  inferInstanceAs (Decidable (_ ≠ _))

/-- In-bounds condition for the read `lastReadings[2]` at line 333. -/
def calcIndexOk (s : DetectState) : Prop :=
  2 < s.lastReadings.length

instance (s : DetectState) : Decidable (calcIndexOk s) :=
  inferInstanceAs (Decidable (_ < _))

/-- The calculation-interval branch (lines 331-377).  The C++ indexes
`lastReadings[2]`, which is undefined behaviour when fewer than three
readings are present; the model must pick a value there and uses
`getD 2 0`. -/
def calcPhase (s : DetectState) : DetectState :=
  if calcGuard s then
    let last_reading := s.lastReadings.getD 2 0
    let w := addValue s.timeWindow s.sortedWindow s.gBPM last_reading BUFFER_SIZE
    let p := publish w.2 s.gBPM s.tol
    { lastReadings := [], timeWindow := w.1, sortedWindow := w.2,
      gBPM := p.1, tol := p.2 }
  else
    { s with lastReadings := [] }

/-- One iteration of `bpmDetectionLoop` with a non-empty audio buffer:
the timer comparisons `now - lastReadingTime >= READ_INTERVAL` and
`now - lastCalculationTime >= CALCULATION_INTERVAL` are external inputs
`readDue` and `calcDue`. -/
def detectStep (bpm : ℚ) (readDue calcDue : Bool) (s : DetectState) : DetectState :=
  let s1 := if readDue then readPhase bpm s else s
  if calcDue then calcPhase s1 else s1

/-- The state of the detector at program start: all windows empty,
`*g_BPM = 0`, `roundingTolerance = INITIAL_ROUNDING_TOLERANCE`. -/
def initialDetectState : DetectState :=
  { lastReadings := [], timeWindow := [], sortedWindow := [],
    gBPM := 0, tol := INITIAL_ROUNDING_TOLERANCE }

/-- A stabilised window whose median is the non-integer 133.6,
used to exercise the drift branch of the publish hysteresis. -/
def driftWindow : List ℚ := [668/5, 668/5, 668/5, 668/5, 668/5]

/-! ## Evaluation helpers for the rational floor, ceiling and rounding -/

theorem floorQ_eq (x : ℚ) (n : ℤ) (h1 : (n : ℚ) ≤ x) (h2 : x < n + 1) :
    floorQ x = (n : ℚ) := by
  unfold floorQ
  norm_cast
  refine Int.floor_eq_iff.mpr ⟨h1, ?_⟩
  exact_mod_cast h2

theorem ceilQ_eq (x : ℚ) (n : ℤ) (h1 : (n : ℚ) - 1 < x) (h2 : x ≤ n) :
    ceilQ x = (n : ℚ) := by
  unfold ceilQ
  norm_cast
  refine Int.ceil_eq_iff.mpr ⟨?_, h2⟩
  exact_mod_cast h1

theorem cRound_nonneg (x : ℚ) (h : 0 ≤ x) : cRound x = floorQ (x + 1/2) := by
  unfold cRound floorQ
  rw [if_pos h]

theorem fmodQ_of_lt (x y : ℚ) (h0 : 0 ≤ x) (hxy : x < y) : fmodQ x y = x := by
  have hy : 0 < y := lt_of_le_of_lt h0 hxy
  unfold fmodQ cTrunc
  have hq : 0 ≤ x / y := div_nonneg h0 hy.le
  rw [if_pos hq]
  have hz : ⌊x / y⌋ = 0 :=
    Int.floor_eq_zero_iff.mpr ⟨hq, by rwa [div_lt_one hy]⟩
  rw [hz]
  push_cast
  ring

/-! ## C5: manual realignment yields an integer beat phase -/

/-- C5: after `manualSync` (realign) the beat phase read at the same
instant is an integer, for any previous phase value, and every
subsequent reader of the returned session state observes the
realigned timeline. -/
theorem manualSync_phase_integer (s : SessionState) (now : ℚ) :
    ∃ k : ℤ, beatAtTime (manualSync s now) now = (k : ℚ) := by
  refine ⟨cTrunc (beatAtTime s now), ?_⟩
  simp only [manualSync, forceBeatAtTime, beatAtTime, fmodQ, div_one]
  ring

/-! ## C6: the grid-boundary predicate -/

/-- C6 counterexample: the claim asserts `isNearMultiple (d/2) 0 d tol`
is false for every `d ≥ 1` and `tol ≥ 0.001`; at `d = 1`,
`tol = 3/5` the predicate is true. -/
theorem isNearMultiple_half_true_at_large_tolerance :
    (1 : ℚ) ≤ 1 ∧ (1/1000 : ℚ) ≤ 3/5 ∧
      isNearMultiple ((1 : ℚ)/2) 0 1 (3/5) := by
  refine ⟨le_refl 1, by norm_num, ?_⟩
  unfold isNearMultiple
  rw [fmodQ_of_lt _ _ (by norm_num) (by norm_num)]
  left
  rw [sub_zero, abs_of_nonneg (by norm_num)]
  norm_num

/-- C6 amended: with `displacement = 0`, the predicate is true at
`value = divisor - 0.0001` for every `divisor ≥ 1` and
`tolerance ≥ 0.001` (wraparound case), and false at
`value = divisor / 2` provided additionally `tolerance ≤ divisor / 2`. -/
theorem isNearMultiple_boundary_cases (d tol : ℚ) (hd : 1 ≤ d)
    (ht : 1/1000 ≤ tol) :
    isNearMultiple (d - 1/10000) 0 d tol ∧
      (tol ≤ d/2 → ¬ isNearMultiple (d/2) 0 d tol) := by
  constructor
  · unfold isNearMultiple
    rw [fmodQ_of_lt _ _ (by linarith) (by linarith)]
    right
    rw [sub_zero, show d - (d - 1/10000) = 1/10000 by ring,
      abs_of_nonneg (by norm_num)]
    linarith
  · intro htol h
    unfold isNearMultiple at h
    rw [fmodQ_of_lt _ _ (by linarith) (by linarith)] at h
    simp only [sub_zero] at h
    rcases h with h | h
    · rw [abs_of_nonneg (by linarith)] at h
      linarith
    · rw [show d - d/2 = d/2 by ring, abs_of_nonneg (by linarith)] at h
      linarith

/-- C6 witness: the boundary cases at the concrete cue grid
`divisor = 32`, `tolerance = 0.1` used by the main loop. -/
theorem isNearMultiple_boundary_cases_witness :
    isNearMultiple ((32 : ℚ) - 1/10000) 0 32 (1/10) ∧
      ¬ isNearMultiple ((32 : ℚ)/2) 0 32 (1/10) :=
  ⟨(isNearMultiple_boundary_cases 32 (1/10) (by norm_num) (by norm_num)).1,
    (isNearMultiple_boundary_cases 32 (1/10) (by norm_num) (by norm_num)).2
      (by norm_num)⟩

/-! ## C2: the bounce animation -/

theorem bounceScale_zero (a : ℝ) : bounceScale a 0 = 1 + a := by
  unfold bounceScale
  rw [show ((0 : ℝ) + 1/2) * Real.pi = Real.pi / 2 by ring,
    Real.sin_pi_div_two]
  ring

theorem bounceScale_half (a : ℝ) : bounceScale a (1/2) = 1 := by
  unfold bounceScale
  rw [show ((1 : ℝ)/2 + 1/2) * Real.pi = Real.pi by ring, Real.sin_pi]
  ring

/-- C2 counterexample: at `progress = 0.5` the bounce scale of the code
(amplitude 0.1) equals 1, not `1 + amplitude`: the sine factor
`sin((0.5 + 0.5) * PI)` is zero, so the claimed peak at mid-progress is
false. -/
theorem bounce_half_not_peak :
    (bounceUpdate (1/2)).2 = 1 ∧ (bounceUpdate (1/2)).2 ≠ 1 + 1/10 := by
  have h : (bounceUpdate (1/2)).2 = 1 := by
    unfold bounceUpdate
    rw [if_pos (by norm_num)]
    exact bounceScale_half _
  exact ⟨h, by rw [h]; norm_num⟩

/-- C2 amended: while `progress < 1` the scale is
`1 + 0.1 * sin((progress + 0.5) * PI)` and the animation stays active;
the sine peak is at `progress = 0`, where the scale is `1 + amplitude`
(for any amplitude), while at `progress = 0.5` the scale is exactly 1;
at `progress ≥ 1` the state machine returns to idle with scale exactly
1. -/
theorem bounce_profile :
    ∀ amplitude : ℝ, bounceScale amplitude 0 = 1 + amplitude ∧
      bounceScale amplitude (1/2) = 1 ∧
      ∀ p : ℝ, (p < 1 → bounceUpdate p = (true, bounceScale (1/10) p)) ∧
        (1 ≤ p → bounceUpdate p = (false, 1)) := by
  intro a
  refine ⟨bounceScale_zero a, bounceScale_half a, fun p => ⟨fun hp => ?_, fun hp => ?_⟩⟩
  · unfold bounceUpdate
    rw [if_pos hp]
  · unfold bounceUpdate
    rw [if_neg (not_lt.mpr hp)]

/-- C2 witness: the amended profile evaluated at amplitude 0.1,
progress 2 (animation over) and progress 0 (peak). -/
theorem bounce_profile_witness :
    bounceScale (1/10) 0 = 1 + 1/10 ∧ bounceUpdate 2 = (false, 1) :=
  ⟨(bounce_profile (1/10)).1,
    ((bounce_profile (1/10)).2.2 2).2 (by norm_num)⟩

/-! ## C8: reselecting the active asset -/

/-- C8: with cue mode off, pressing the key of the asset that is
already active (asset 3) closes and reopens it: the active handle is
unchanged but a close/open cycle is performed, so the selection is not
a no-op.  (The skip rule of the claim exists only in the older
`part_002` variant of the main loop.) -/
theorem reselect_active_reopens :
    instantSwap (some 3) true false ⟨3, 0, 0⟩ = ⟨3, 1, 1⟩ ∧
      (instantSwap (some 3) true false ⟨3, 0, 0⟩).closes ≠ 0 := by
  exact ⟨rfl, by decide⟩

/-! ## C10: the out-of-bounds read of `lastReadings[2]` -/

/-- C10: on the first loop iteration after startup in which both timer
intervals have elapsed (device selection takes longer than the 500 ms
calculation interval), a single reading is inserted, the publish guard
`lastReadings.size() > 0` holds, and yet index 2 is out of bounds:
`lastReadings[2]` reads past the end of a one-element vector. -/
theorem lastReadings_index_two_out_of_bounds :
    calcGuard (readPhase 120 initialDetectState) ∧
      ¬ calcIndexOk (readPhase 120 initialDetectState) ∧
      (readPhase 120 initialDetectState).lastReadings.get? 2 = none := by
  refine ⟨?_, ?_, ?_⟩ <;> decide

/-! ## C4: the cue commit fires on every frame near the boundary -/

/-- C4: queueing asset 1 leaves the active asset unchanged; the first
render tick inside the boundary window (beat 31.95 of the 32-beat
grid) promotes the queued asset; the next tick (beat 31.97, still
inside the same boundary window) immediately overwrites it with a
random pick (asset 7), because the commit block has no once-per-
interval edge detection.  The claimed exactly-once commit is violated. -/
theorem cue_double_commit :
    (cueKeyPress 1 ⟨0, none⟩).active = 0 ∧
      cueTick (3195/100) 0 5 (cueKeyPress 1 ⟨0, none⟩) = ⟨1, none⟩ ∧
      cueTick (3197/100) 0 7 (⟨1, none⟩ : ChannelState) = ⟨7, none⟩ := by
  have h1 : isNearMultiple (3195/100) 0 32 (1/10) := by
    unfold isNearMultiple
    rw [fmodQ_of_lt _ _ (by norm_num) (by norm_num)]
    right
    rw [sub_zero, show (32 : ℚ) - 3195/100 = 1/20 by norm_num,
      abs_of_nonneg (by norm_num)]
    norm_num
  have h2 : isNearMultiple (3197/100) 0 32 (1/10) := by
    unfold isNearMultiple
    rw [fmodQ_of_lt _ _ (by norm_num) (by norm_num)]
    right
    rw [sub_zero, show (32 : ℚ) - 3197/100 = 3/100 by norm_num,
      abs_of_nonneg (by norm_num)]
    norm_num
  refine ⟨rfl, ?_, ?_⟩
  · unfold cueTick cueKeyPress
    rw [if_pos h1]
    rfl
  · unfold cueTick
    rw [if_pos h2]
    rfl

/-! ## Shared evaluation lemmas for the smoother pipeline -/

theorem medianOf_specWindow : medianOf specWindow = 120 := by
  norm_num [medianOf, sortQ, specWindow, lowerBoundInsert]

theorem acceptAll_specWindow : acceptAll specWindow 120 = (specWindow, specWindow) := by
  norm_num [acceptAll, specWindow, addValue, octaveCorrect, lowerBoundInsert,
    lowerBoundEraseOne, BUFFER_SIZE, PERCENTAGE_TOLERANCE]

/-- With the spec window (median exactly 120) and published BPM 120, the
inner hysteresis takes the in-band branch, returns the median and
shrinks the tolerance. -/
theorem calc_spec_g120 (t : ℚ) (ht : 0 < t) :
    calculateMedianBPM specWindow 120 t = (120, max (1/100) (t - 1/20)) := by
  have hf : floorQ (120 : ℚ) = 120 := floorQ_eq _ 120 (by norm_num) (by norm_num)
  have hc : ceilQ (120 : ℚ) = 120 := ceilQ_eq _ 120 (by norm_num) (by norm_num)
  have hr : cRound (120 : ℚ) = 120 := by
    rw [cRound_nonneg _ (by norm_num)]
    exact floorQ_eq _ 120 (by norm_num) (by norm_num)
  unfold calculateMedianBPM
  rw [if_neg (by simp [specWindow])]
  simp only [medianOf_specWindow, hf, hc, hr]
  rw [if_neg (by norm_num [strongEvidenceP, hc, hf])]
  rw [if_pos (by simp [ht])]
  simp

/-- With the spec window and published BPM 119, the inner hysteresis
rounds to the new value 120 and resets the tolerance to 0.1. -/
theorem calc_spec_g119 (t : ℚ) (ht : 0 < t) :
    calculateMedianBPM specWindow 119 t = (120, 1/10) := by
  have hf : floorQ (120 : ℚ) = 120 := floorQ_eq _ 120 (by norm_num) (by norm_num)
  have hc : ceilQ (120 : ℚ) = 120 := ceilQ_eq _ 120 (by norm_num) (by norm_num)
  have hr : cRound (120 : ℚ) = 120 := by
    rw [cRound_nonneg _ (by norm_num)]
    exact floorQ_eq _ 120 (by norm_num) (by norm_num)
  unfold calculateMedianBPM
  rw [if_neg (by simp [specWindow])]
  simp only [medianOf_specWindow, hf, hc, hr]
  rw [if_neg (by norm_num [strongEvidenceP, hc, hf])]
  rw [if_pos (by simp [ht])]
  norm_num

theorem publish_spec_g120_eval :
    publish specWindow 120 (1/5) = (119, 1/4) := by
  have hq : calculateMedianBPM specWindow 120 (1/5) = (120, 3/20) := by
    rw [calc_spec_g120 _ (by norm_num)]
    rw [max_eq_right (by norm_num : (1 : ℚ)/100 ≤ 1/5 - 1/20)]
    norm_num
  have hf118 : floorQ (591/5) = 118 := floorQ_eq _ 118 (by norm_num) (by norm_num)
  have hc119 : ceilQ (591/5) = 119 := ceilQ_eq _ 119 (by norm_num) (by norm_num)
  have hr118 : cRound (591/5) = 118 := by
    rw [cRound_nonneg _ (by norm_num)]
    exact floorQ_eq _ 118 (by norm_num) (by norm_num)
  have ha1 : |(1 : ℚ)/5| = 1/5 := abs_of_nonneg (by norm_num)
  have ha2 : |(4 : ℚ)/5| = 4/5 := abs_of_nonneg (by norm_num)
  norm_num +decide [publish, hq, strongEvidenceP, hf118, hc119, hr118,
    ha1, ha2, INITIAL_ROUNDING_TOLERANCE, MIN_ROUNDING_TOLERANCE,
    MAX_ROUNDING_TOLERANCE, TOLERANCE_SHRINK_RATE, TOLERANCE_GROWTH_RATE,
    min_def, max_def]

/-! ## C1: the spec-window scenario publishes 119, not 120 -/

/-- C1 counterexample: accepting 118, 119, 120, 121, 122 in order and
publishing with last published BPM 120 (initial rounding tolerance)
does not return 120. -/
theorem publish_spec_window_not_120 :
    (publish (acceptAll specWindow 120).2 120 INITIAL_ROUNDING_TOLERANCE).1 ≠ 120 := by
  rw [acceptAll_specWindow]
  norm_num [INITIAL_ROUNDING_TOLERANCE, publish_spec_g120_eval]

/-- C1 amended: accepting 118, 119, 120, 121, 122 in order yields the
window [118, 119, 120, 121, 122]; with last published BPM 120 and the
initial rounding tolerance 0.2, `publish` returns 119: the median 120
passes the in-window hysteresis unchanged (tolerance shrinks to 0.15),
the publish block applies the 1.5 percent downward correction giving
118.2, which lies outside the hysteresis band, so the drift branch
rounds toward the previous value and publishes `ceil(118.2) = 119`.
For every in-range tolerance the result is never 120. -/
theorem publish_spec_window_eq_119 :
    acceptAll specWindow 120 = (specWindow, specWindow) ∧
      publish specWindow 120 INITIAL_ROUNDING_TOLERANCE = (119, 1/4) ∧
      ∀ t : ℚ, 1/100 ≤ t → t ≤ 1/2 → (publish specWindow 120 t).1 ≠ 120 := by
  refine ⟨acceptAll_specWindow, by
    rw [INITIAL_ROUNDING_TOLERANCE]; exact publish_spec_g120_eval, ?_⟩
  intro t h1 h2
  have ht : 0 < t := lt_of_lt_of_le (by norm_num) h1
  have hq := calc_spec_g120 t ht
  have hf118 : floorQ (591/5) = 118 := floorQ_eq _ 118 (by norm_num) (by norm_num)
  have hc119 : ceilQ (591/5) = 119 := ceilQ_eq _ 119 (by norm_num) (by norm_num)
  have hr118 : cRound (591/5) = 118 := by
    rw [cRound_nonneg _ (by norm_num)]
    exact floorQ_eq _ 118 (by norm_num) (by norm_num)
  have ha1 : |(1 : ℚ)/5| = 1/5 := abs_of_nonneg (by norm_num)
  have ha2 : |(4 : ℚ)/5| = 4/5 := abs_of_nonneg (by norm_num)
  have hM : max (1/100) (t - 1/20) ≤ 9/20 := by
    apply max_le (by norm_num)
    linarith
  by_cases hb : (1 : ℚ)/5 < max (1/100) (t - 1/20)
  · norm_num [publish, hq, strongEvidenceP, hf118, hc119, hr118, ha1, ha2, hb]
  · have hb2 : ¬ ((4 : ℚ)/5 < max (1/100) (t - 1/20)) := by linarith
    norm_num [publish, hq, strongEvidenceP, hf118, hc119, hr118, ha1, ha2, hb, hb2]

/-- C1 witness: the never-120 clause applied at the initial tolerance. -/
theorem publish_spec_window_eq_119_witness :
    (publish specWindow 120 (1/5)).1 ≠ 120 :=
  publish_spec_window_eq_119.2.2 (1/5) (by norm_num) (by norm_num)

/-! ## C7: publish is not idempotent -/

theorem medianOf_driftWindow : medianOf driftWindow = 668/5 := by
  norm_num [medianOf, sortQ, driftWindow, lowerBoundInsert]

theorem calc_drift_g120 : calculateMedianBPM driftWindow 120 (1/2) = (134, 1/10) := by
  have hf : floorQ (668/5) = 133 := floorQ_eq _ 133 (by norm_num) (by norm_num)
  have hc : ceilQ (668/5) = 134 := ceilQ_eq _ 134 (by norm_num) (by norm_num)
  have hr : cRound (668/5) = 134 := by
    rw [cRound_nonneg _ (by norm_num)]
    exact floorQ_eq _ 134 (by norm_num) (by norm_num)
  have ha1 : |(3 : ℚ)/5| = 3/5 := abs_of_nonneg (by norm_num)
  have ha2 : |(2 : ℚ)/5| = 2/5 := abs_of_nonneg (by norm_num)
  unfold calculateMedianBPM
  rw [if_neg (by simp [driftWindow])]
  norm_num [medianOf_driftWindow, hf, hc, hr, ha1, ha2, strongEvidenceP]

theorem calc_drift_g132 : calculateMedianBPM driftWindow 132 (1/5) = (133, 3/10) := by
  have hf : floorQ (668/5) = 133 := floorQ_eq _ 133 (by norm_num) (by norm_num)
  have hc : ceilQ (668/5) = 134 := ceilQ_eq _ 134 (by norm_num) (by norm_num)
  have hr : cRound (668/5) = 134 := by
    rw [cRound_nonneg _ (by norm_num)]
    exact floorQ_eq _ 134 (by norm_num) (by norm_num)
  have ha1 : |(3 : ℚ)/5| = 3/5 := abs_of_nonneg (by norm_num)
  have ha2 : |(2 : ℚ)/5| = 2/5 := abs_of_nonneg (by norm_num)
  unfold calculateMedianBPM
  rw [if_neg (by simp [driftWindow])]
  norm_num [medianOf_driftWindow, hf, hc, hr, ha1, ha2, strongEvidenceP, min_def]

theorem pub_drift_g120 : publish driftWindow 120 (1/2) = (132, 1/5) := by
  have hf : floorQ (13199/100) = 131 := floorQ_eq _ 131 (by norm_num) (by norm_num)
  have hc : ceilQ (13199/100) = 132 := ceilQ_eq _ 132 (by norm_num) (by norm_num)
  have hr : cRound (13199/100) = 132 := by
    rw [cRound_nonneg _ (by norm_num)]
    exact floorQ_eq _ 132 (by norm_num) (by norm_num)
  have ha1 : |(99 : ℚ)/100| = 99/100 := abs_of_nonneg (by norm_num)
  have ha2 : |(1 : ℚ)/100| = 1/100 := abs_of_nonneg (by norm_num)
  norm_num [publish, calc_drift_g120, strongEvidenceP, hf, hc, hr, ha1, ha2,
    INITIAL_ROUNDING_TOLERANCE]

theorem pub_drift_g132 : publish driftWindow 132 (1/5) = (131, 1/5) := by
  have hf : floorQ (26201/200) = 131 := floorQ_eq _ 131 (by norm_num) (by norm_num)
  have hc : ceilQ (26201/200) = 132 := ceilQ_eq _ 132 (by norm_num) (by norm_num)
  have hr : cRound (26201/200) = 131 := by
    rw [cRound_nonneg _ (by norm_num)]
    exact floorQ_eq _ 131 (by norm_num) (by norm_num)
  norm_num [publish, calc_drift_g132, strongEvidenceP, hf, hc, hr,
    INITIAL_ROUNDING_TOLERANCE]

/-- C7 counterexample: with the unchanging stabilised window of five
samples 133.6, last published BPM 120 and tolerance 0.5, the first
`publish` returns 132 and the second (no new samples accepted in
between) returns 131: repeated calls do not return the same value. -/
theorem publish_not_idempotent :
    (publish driftWindow 120 (1/2)).1 = 132 ∧
      (publish driftWindow (publish driftWindow 120 (1/2)).1
          (publish driftWindow 120 (1/2)).2).1 = 131 ∧
      (132 : ℚ) ≠ 131 := by
  rw [pub_drift_g120]
  refine ⟨rfl, ?_, by norm_num⟩
  show (publish driftWindow 132 (1/5)).1 = 131
  rw [pub_drift_g132]

/-- C7 amended: repeated `publish` calls on an unchanged window can
return different values (see the counterexample); for a stabilised
integer-median window such as the spec window, the published value 119
is a fixed point: once 119 has been published, every further call
returns 119 and leaves the state at (119, 0.2), for any in-range
rounding tolerance.  Idempotence therefore holds from the first call
that publishes the fixed-point value, not unconditionally. -/
theorem publish_stabilized_window_fixed :
    ∀ t : ℚ, 1/100 ≤ t → t ≤ 1/2 → publish specWindow 119 t = (119, 1/5) := by
  intro t h1 h2
  have ht : 0 < t := lt_of_lt_of_le (by norm_num) h1
  have hf118 : floorQ (591/5) = 118 := floorQ_eq _ 118 (by norm_num) (by norm_num)
  have hc119 : ceilQ (591/5) = 119 := ceilQ_eq _ 119 (by norm_num) (by norm_num)
  have hr118 : cRound (591/5) = 118 := by
    rw [cRound_nonneg _ (by norm_num)]
    exact floorQ_eq _ 118 (by norm_num) (by norm_num)
  have ha1 : |(1 : ℚ)/5| = 1/5 := abs_of_nonneg (by norm_num)
  have ha2 : |(4 : ℚ)/5| = 4/5 := abs_of_nonneg (by norm_num)
  norm_num [publish, calc_spec_g119 t ht, strongEvidenceP, hf118, hc119,
    hr118, ha1, ha2, MAX_ROUNDING_TOLERANCE, TOLERANCE_GROWTH_RATE, min_def]

/-- C7 witness: the fixed point evaluated at tolerance 0.25. -/
theorem publish_stabilized_window_fixed_witness :
    publish specWindow 119 (1/4) = (119, 1/5) :=
  publish_stabilized_window_fixed (1/4) (by norm_num) (by norm_num)

/-! ## C9: the rounding tolerance stays within its bounds -/

/-- C9: starting from a tolerance in [MIN_TOL, MAX_TOL] = [0.01, 0.5],
the tolerance after the inner `calculateMedianBPM` mutation and after
the complete publish block stays in [0.01, 0.5], across all hysteresis
branches. -/
theorem roundingTolerance_bounds (w : List ℚ) (g t : ℚ)
    (h1 : 1/100 ≤ t) (h2 : t ≤ 1/2) :
    (1/100 ≤ (calculateMedianBPM w g t).2 ∧ (calculateMedianBPM w g t).2 ≤ 1/2) ∧
      (1/100 ≤ (publish w g t).2 ∧ (publish w g t).2 ≤ 1/2) := by
  have hin : 1/100 ≤ (calculateMedianBPM w g t).2 ∧ (calculateMedianBPM w g t).2 ≤ 1/2 := by
    simp only [calculateMedianBPM]
    split_ifs
    · exact ⟨h1, h2⟩
    · exact ⟨by norm_num, by norm_num⟩
    · exact ⟨le_max_left _ _, max_le (by norm_num) (by linarith)⟩
    · exact ⟨by norm_num, by norm_num⟩
    · exact ⟨le_min (by linarith) (by norm_num), min_le_right _ _⟩
    · exact ⟨le_min (by linarith) (by norm_num), min_le_right _ _⟩
  refine ⟨hin, ?_⟩
  obtain ⟨k1, k2⟩ := hin
  simp only [publish, INITIAL_ROUNDING_TOLERANCE, MIN_ROUNDING_TOLERANCE,
    MAX_ROUNDING_TOLERANCE, TOLERANCE_SHRINK_RATE, TOLERANCE_GROWTH_RATE]
  split_ifs
  · exact ⟨by norm_num, by norm_num⟩
  · exact ⟨le_max_left _ _, max_le (by norm_num) (by linarith)⟩
  · exact ⟨by norm_num, by norm_num⟩
  · exact ⟨le_min (by norm_num) (by linarith), min_le_left _ _⟩
  · exact ⟨le_min (by norm_num) (by linarith), min_le_left _ _⟩

/-- C9 witness: the bounds at the single-sample window [120] with
published BPM 0 and the initial tolerance. -/
theorem roundingTolerance_bounds_witness :
    (1/100 ≤ (publish [120] 0 (1/5)).2 ∧ (publish [120] 0 (1/5)).2 ≤ 1/2) :=
  (roundingTolerance_bounds [120] 0 (1/5) (by norm_num) (by norm_num)).2

/-! ## C3: the acceptance filter of `addValue` -/

theorem lowerBoundInsert_eq (l : List ℚ) (v : ℚ) :
    lowerBoundInsert l v = List.orderedInsert (· ≤ ·) v l := by
  induction l with
  | nil => rfl
  | cons x xs ih =>
    unfold lowerBoundInsert List.orderedInsert
    by_cases h : x < v
    · rw [if_pos h, if_neg (not_le.mpr h), ih]
    · rw [if_neg h, if_pos (not_lt.mp h)]

theorem lowerBoundInsert_perm (l : List ℚ) (v : ℚ) :
    (lowerBoundInsert l v).Perm (v :: l) := by
  rw [lowerBoundInsert_eq]
  exact List.perm_orderedInsert _ _ _

theorem lowerBoundInsert_sorted {l : List ℚ} (h : l.Sorted (· ≤ ·)) (v : ℚ) :
    (lowerBoundInsert l v).Sorted (· ≤ ·) := by
  rw [lowerBoundInsert_eq]
  exact List.Sorted.orderedInsert v l h

/-- On a sorted list the erase loop of `addValue` removes exactly the
first occurrence of `v` (and nothing when `v` is absent). -/
theorem lowerBoundEraseOne_eq_erase {l : List ℚ} (h : l.Sorted (· ≤ ·)) (v : ℚ) :
    lowerBoundEraseOne l v = l.erase v := by
  induction l with
  | nil => rfl
  | cons x xs ih =>
    rw [List.sorted_cons] at h
    unfold lowerBoundEraseOne
    by_cases hx : x < v
    · rw [if_pos hx, ih h.2, List.erase_cons, if_neg (by simp [hx.ne])]
    · rw [if_neg hx]
      by_cases he : x = v
      · rw [if_pos he, he, List.erase_cons_head]
      · rw [if_neg he, List.erase_cons, if_neg (by simp [he]),
          List.erase_of_not_mem]
        intro hm
        have hvx : v < x := lt_of_le_of_ne (not_lt.mp hx) (fun e => he e.symm)
        exact absurd (h.1 v hm) (not_le.mpr hvx)

theorem erase_headI (l : List ℚ) (h : l ≠ []) : l.erase l.headI = l.tail := by
  cases l with
  | nil => exact absurd rfl h
  | cons x xs => simp [List.headI, List.erase_cons_head]

/-- C3: one `addValue` call first doubles a sample below 100
(`octaveCorrect`); with a full window, a (possibly doubled) sample
outside the band `[min - gBPM * TOL, max + gBPM * TOL]` is rejected as
a no-op; otherwise the sample is inserted in sorted position (the
sorted window stays sorted and remains a permutation of the insertion-
order window) and the oldest sample is evicted when the window exceeds
capacity. -/
theorem addValue_accept_reject_evict (tw sw : List ℚ) (g v : ℚ) (ws : ℕ)
    (hperm : sw.Perm tw) (hsort : sw.Sorted (· ≤ ·)) :
    (ws ≤ tw.length ∧
        (octaveCorrect v < sw.headI - g * PERCENTAGE_TOLERANCE ∨
          sw.getLastD 0 + g * PERCENTAGE_TOLERANCE < octaveCorrect v) →
      addValue tw sw g v ws = (tw, sw)) ∧
    (¬ (ws ≤ tw.length ∧
        (octaveCorrect v < sw.headI - g * PERCENTAGE_TOLERANCE ∨
          sw.getLastD 0 + g * PERCENTAGE_TOLERANCE < octaveCorrect v)) →
      (addValue tw sw g v ws).1 =
          (if ws ≤ tw.length + 1 then (tw ++ [octaveCorrect v]).tail
            else tw ++ [octaveCorrect v]) ∧
        ((addValue tw sw g v ws).2).Sorted (· ≤ ·) ∧
        ((addValue tw sw g v ws).2).Perm ((addValue tw sw g v ws).1)) := by
  have hsw2 : (lowerBoundInsert sw (octaveCorrect v)).Sorted (· ≤ ·) :=
    lowerBoundInsert_sorted hsort _
  have hptw : (lowerBoundInsert sw (octaveCorrect v)).Perm
      (tw ++ [octaveCorrect v]) :=
    (lowerBoundInsert_perm sw _).trans
      ((hperm.cons _).trans (List.perm_append_singleton _ tw).symm)
  have hlen : (tw ++ [octaveCorrect v]).length = tw.length + 1 := by
    simp
  constructor
  · intro h
    simp only [addValue]
    rw [if_pos h]
  · intro h
    simp only [addValue]
    rw [if_neg h]
    by_cases hl : ws ≤ (tw ++ [octaveCorrect v]).length
    · rw [if_pos hl]
      rw [hlen] at hl
      refine ⟨by rw [if_pos hl], ?_, ?_⟩
      · rw [lowerBoundEraseOne_eq_erase hsw2]
        exact List.Pairwise.sublist (List.erase_sublist _ _) hsw2
      · rw [lowerBoundEraseOne_eq_erase hsw2]
        have hr := hptw.erase ((tw ++ [octaveCorrect v]).headI)
        rw [erase_headI _ (by simp)] at hr
        exact hr
    · rw [if_neg hl]
      rw [hlen] at hl
      exact ⟨by rw [if_neg hl], hsw2, hptw⟩

/-- C3 witness: accepting 130 into the full two-element window
[110, 120] (window size 2, published BPM 120): the sample is in band,
gets inserted, and the oldest sample 110 is evicted. -/
theorem addValue_accept_reject_evict_witness :
    (addValue [110, 120] [110, 120] 120 130 2).1 = [120, 130] ∧
      ((addValue [110, 120] [110, 120] 120 130 2).2).Sorted (· ≤ ·) ∧
      (addValue [110, 120] [110, 120] 120 130 2).2.Perm
        ((addValue [110, 120] [110, 120] 120 130 2).1) := by
  obtain ⟨h1, h2, h3⟩ :=
    (addValue_accept_reject_evict [110, 120] [110, 120] 120 130 2
        (List.Perm.refl _) (by norm_num [List.sorted_cons])).2
      (by norm_num [octaveCorrect, PERCENTAGE_TOLERANCE])
  rw [if_pos (by norm_num)] at h1
  norm_num [octaveCorrect] at h1
  exact ⟨h1, h2, h3⟩

end VisualHive
